import Mathlib

/-!
Verification of the CredNova alternative credit scoring repository.

The file shallowly embeds the frontend code (score band labelling, the
dashboard score history, the CheckScore form flow, the typed payloads)
and, for the scoring engine that the specification describes but whose
backend implementation is not part of the source tree, a model built
from the specification text (each such definition is marked
"Modelled from the spec:").
-/

namespace CredNova

/-- Embedding of getScoreLabel from the CreditScoreCalculator component
(src/unnamed/part_003, lines 257-263).  Returns the label text and the
description shown under the score. -/
def getScoreLabel (score : Int) : String × String :=
  if score ≥ 750 then ("Excellent", "You qualify for the best rates")
  else if score ≥ 700 then ("Very Good", "Great credit opportunities")
  else if score ≥ 650 then ("Good", "Most credit products available")
  else if score ≥ 600 then ("Fair", "Some credit options available")
  else ("Building", "Focus on building credit history")

/-- Embedding of getScoreClass from src/Frontend/src/pages/Dashboard.tsx,
lines 51-56. -/
def getScoreClass (score : Int) : String :=
  if score ≥ 750 then "excellent"
  else if score ≥ 700 then "good"
  else if score ≥ 650 then "fair"
  else "poor"

/-- Embedding of the scoreHistory array built in
src/Frontend/src/pages/Dashboard.tsx, lines 152-156, as a function of the
current credit score. -/
def scoreHistory (creditScore : Int) : List (String × Int) :=
  [("2 months ago", max 300 (creditScore - 40)),
   ("1 month ago", max 300 (creditScore - 20)),
   ("Current", creditScore)]

/-- The numeric points of the rendered score history, in display order. -/
def scoreHistoryScores (creditScore : Int) : List Int :=
  (scoreHistory creditScore).map Prod.snd

/-- Embedding of the FormData interface of the fieldConfig-driven
CheckScore component (src/Frontend/src/pages/CheckScore.tsx, second
component, lines 709-741).  Every field is stored as a string. -/
structure FormData where
  age : String
  state : String
  education_level : String
  employment_type : String
  monthly_income : String
  years_current_job : String
  monthly_housing_cost : String
  has_mortgage : String
  bank_balance : String
  monthly_savings : String
  num_dependents : String
  num_credit_cards : String
  has_student_loan : String
  student_loan_payment : String
  has_car_loan : String
  car_loan_payment : String
  recent_credit_inquiries : String
  late_payments_12m : String
  bankruptcy_history : String
  years_credit_history : String

/-- Embedding of handleSubmit (src/Frontend/src/pages/CheckScore.tsx,
lines 774-779): the submitted form data is logged and discarded, and the
router is sent to the score-result route.  The caller-visible outcome is
the navigation target, which this function returns. -/
def handleSubmit (_ : FormData) : String := "/score-result"

/-- Embedding of the fixed score shown by the ScoreResult page
(src/unnamed/part_002, line 16). -/
def scoreResultFinalScore : Int := 756

/-- Embedding of the fixed score category shown by the ScoreResult page
(src/unnamed/part_002, line 17). -/
def scoreResultCategory : String := "Excellent"

/-- Embedding of the onChange sanitizer attached to every field configured
with type "number" in the CheckScore fieldConfig form
(src/Frontend/src/pages/CheckScore.tsx, line 984): the regex
replace removes every character outside 0-9. -/
def stripNonDigits (s : String) : String :=
  String.mk (s.data.filter fun c => c.isDigit)

/-- The stored value of a number-configured field after a sequence of
edits: each onChange replaces the stored value by the sanitized raw input
(src/Frontend/src/pages/CheckScore.tsx, lines 978-989, with
handleInputChange at lines 770-772).  The field starts empty. -/
def numberFieldValue (edits : List String) : String :=
  edits.foldl (fun _ raw => stripNonDigits raw) ""

/-- Embedding of the DashboardData interface
(src/Frontend/src/types/index.ts, lines 52-59): the payload through which
the frontend receives a stored score. -/
structure DashboardData where
  creditScore : Int
  scoreRange : String
  bestAchievableScore : Int
  loanApproved : Bool
  lastUpdatedDate : String
  hasData : Bool

/-- The serialization keys declared by the DashboardData interface
(src/Frontend/src/types/index.ts, lines 52-59), in declaration order. -/
def dashboardDataFields : List String :=
  ["creditScore", "scoreRange", "bestAchievableScore", "loanApproved",
   "lastUpdatedDate", "hasData"]

/-- The grouped shape of the FinancialData submission payload as declared
in src/Frontend/src/types/index.ts, lines 7-50: each group with its field
names and TypeScript types, in declaration order. -/
def financialDataShape : List (String × List (String × String)) :=
  [("personal_info",
    [("age", "number"), ("state", "string"), ("education_level", "string")]),
   ("employment_income",
    [("employment_type", "string"), ("annual_income", "number"),
     ("job_duration", "string")]),
   ("housing",
    [("monthly_cost", "number"), ("mortgage", "number"),
     ("savings", "number"), ("balance", "number")]),
   ("family", [("dependents", "number")]),
   ("credit_loans",
    [("existing_loans", "number"), ("loan_payments", "number"),
     ("credit_cards", "number")]),
   ("credit_behavior",
    [("inquiries", "number"), ("late_payments", "number"),
     ("bankruptcy", "boolean"), ("credit_history_length", "number")])]

/-- The submission payload shape as written in the specification,
section 6, for refinement comparison with financialDataShape. -/
def specSubmissionShape : List (String × List (String × String)) :=
  [("personal_info",
    [("age", "int"), ("state", "string"), ("education_level", "enum")]),
   ("employment_income",
    [("employment_type", "enum"), ("annual_income", "number"),
     ("job_duration", "string")]),
   ("housing",
    [("monthly_cost", "number"), ("mortgage", "number"),
     ("savings", "number"), ("balance", "number")]),
   ("family", [("dependents", "int")]),
   ("credit_loans",
    [("existing_loans", "int"), ("loan_payments", "number"),
     ("credit_cards", "int")]),
   ("credit_behavior",
    [("inquiries", "int"), ("late_payments", "int"),
     ("bankruptcy", "bool"), ("credit_history_length", "number")])]

/-- How each serialization-level type of the specification is represented
in the TypeScript payload declarations: TypeScript has a single number
type, so int is declared number, and closed enumerations are declared
string with the vocabulary enforced by the form options. -/
def tsRepr (t : String) : String :=
  if t = "int" then "number"
  else if t = "enum" then "string"
  else if t = "bool" then "boolean"
  else t

/-- Modelled from the spec: the backend Scoring Engine
(Backend credit_score_app/app/services/ml_service.py and its callers) is
not part of the source tree; only its README and the model training
report are.  The typed FinancialProfile of spec section 3, flattened from
the six submission groups of section 6. -/
structure FinancialProfile where
  age : Int
  state : String
  education_level : String
  employment_type : String
  annual_income : Rat
  job_duration : String
  monthly_cost : Rat
  mortgage : Rat
  savings : Rat
  balance : Rat
  dependents : Int
  existing_loans : Int
  loan_payments : Rat
  credit_cards : Int
  inquiries : Int
  late_payments : Int
  bankruptcy : Bool
  credit_history_length : Rat

/-- Modelled from the spec: a raw submission before the Input Normalizer
runs (spec section 4.1).  Optional fields carry Option: dependents is
explicitly optional with default 0, and age is a required field whose
absence must raise a validation error (spec section 8, missing-optional
scenario). -/
structure RawSubmission where
  age : Option Int
  state : String
  education_level : String
  employment_type : String
  annual_income : Rat
  job_duration : String
  monthly_cost : Rat
  mortgage : Rat
  savings : Rat
  balance : Rat
  dependents : Option Int
  existing_loans : Int
  loan_payments : Rat
  credit_cards : Int
  inquiries : Int
  late_payments : Int
  bankruptcy : Bool
  credit_history_length : Rat

/-- Modelled from the spec: ValidationError with the offending field and
a reason (spec section 4.1). -/
structure ValidationError where
  field : String
  reason : String
deriving DecidableEq, Repr

/-- Modelled from the spec: the ModelError taxonomy of section 4.3. -/
inductive ModelError where
  | modelUnavailable
  | schemaMismatch
  | inferenceFailure
deriving DecidableEq, Repr

/-- Modelled from the spec: the ScoreSource tag of section 3. -/
inductive ScoreSource where
  | modelInference
  | ruleFallback
deriving DecidableEq, Repr

/-- Modelled from the spec: serialization of the source tag in the output
interface of section 6, enum of model and fallback. -/
def ScoreSource.serialize : ScoreSource → String
  | .modelInference => "model"
  | .ruleFallback => "fallback"

/-- Modelled from the spec: the band enumeration of section 3. -/
inductive Band where
  | Poor
  | Fair
  | Good
  | VeryGood
  | Excellent
deriving DecidableEq, Repr

/-- Modelled from the spec: the impact direction of an Insight. -/
inductive ImpactDirection where
  | Positive
  | Negative
  | Neutral
deriving DecidableEq, Repr

/-- Modelled from the spec: the Insight record of section 3. -/
structure Insight where
  factorName : String
  impactDirection : ImpactDirection
  magnitude : Rat
  description : String
deriving DecidableEq, Repr

/-- Modelled from the spec: the range checks of the Input Normalizer of
section 4.1, in a fixed order: every numeric field non-negative and age
between 18 and 120.  Each check pairs the flag that the field is invalid
with the structured error for it. -/
def checks (s : RawSubmission) (a : Int) : List (Bool × ValidationError) :=
  [(decide (a < 18), { field := "age", reason := "below minimum" }),
   (decide (120 < a), { field := "age", reason := "above maximum" }),
   (decide (s.annual_income < 0),
    { field := "annual_income", reason := "negative" }),
   (decide (s.monthly_cost < 0),
    { field := "monthly_cost", reason := "negative" }),
   (decide (s.mortgage < 0), { field := "mortgage", reason := "negative" }),
   (decide (s.savings < 0), { field := "savings", reason := "negative" }),
   (decide (s.balance < 0), { field := "balance", reason := "negative" }),
   (decide (s.loan_payments < 0),
    { field := "loan_payments", reason := "negative" }),
   (decide (s.credit_history_length < 0),
    { field := "credit_history_length", reason := "negative" }),
   (decide (s.existing_loans < 0),
    { field := "existing_loans", reason := "negative" }),
   (decide (s.credit_cards < 0),
    { field := "credit_cards", reason := "negative" }),
   (decide (s.inquiries < 0), { field := "inquiries", reason := "negative" }),
   (decide (s.late_payments < 0),
    { field := "late_payments", reason := "negative" }),
   (decide ((s.dependents.getD 0) < 0),
    { field := "dependents", reason := "negative" })]

/-- Modelled from the spec: the first violated range invariant, if any. -/
def firstInvalid (s : RawSubmission) (a : Int) : Option ValidationError :=
  ((checks s a).find? fun c => c.1).map Prod.snd

/-- Modelled from the spec: the Input Normalizer of section 4.1.  Fails
with ValidationError when a required field is missing or violates a
stated range invariant; missing dependents defaults to 0. -/
def normalize (s : RawSubmission) : Except ValidationError FinancialProfile :=
  match s.age with
  | none => .error { field := "age", reason := "required field missing" }
  | some a =>
    match firstInvalid s a with
    | some e => .error e
    | none =>
      .ok { age := a, state := s.state,
            education_level := s.education_level,
            employment_type := s.employment_type,
            annual_income := s.annual_income,
            job_duration := s.job_duration,
            monthly_cost := s.monthly_cost, mortgage := s.mortgage,
            savings := s.savings, balance := s.balance,
            dependents := s.dependents.getD 0,
            existing_loans := s.existing_loans,
            loan_payments := s.loan_payments,
            credit_cards := s.credit_cards, inquiries := s.inquiries,
            late_payments := s.late_payments, bankruptcy := s.bankruptcy,
            credit_history_length := s.credit_history_length }

/-- Modelled from the spec: the FeatureVector of section 4.2, restricted
to the features derivable from the submission payload of section 6.  The
payment-consistency inputs named in the spec are not part of the payload,
so the payment reliability index is derived from the late-payment count. -/
structure FeatureVector where
  income_to_housing : Rat
  financial_cushion : Rat
  payment_reliability : Rat
  risk_behavior_score : Rat
  employment_unemployed : Rat
  credit_card_count : Rat
  loan_count : Rat
deriving DecidableEq, Repr

/-- Numeric encoding of the bankruptcy flag. -/
def bankruptcyFlag (b : Bool) : Rat := if b then 1 else 0

/-- Modelled from the spec: the Feature Engineer of section 4.2.  Pure
and total; the income and cushion ratios guard the denominator with a
sentinel and are capped at a fixed ceiling of 100; the risk behavior
composite uses fixed documented weights (late payments 5, inquiries 2,
bankruptcy 50); unemployment is one-hot encoded. -/
def engineer (p : FinancialProfile) : FeatureVector :=
  { income_to_housing :=
      min 100 (p.annual_income / max (12 * p.monthly_cost) 1)
    financial_cushion := min 100 (p.savings / max p.monthly_cost 1)
    payment_reliability := max 0 (1 - (p.late_payments : Rat) / 12)
    risk_behavior_score :=
      5 * (p.late_payments : Rat) + 2 * (p.inquiries : Rat)
        + 50 * bankruptcyFlag p.bankruptcy
    employment_unemployed := if p.employment_type = "unemployed" then 1 else 0
    credit_card_count := (p.credit_cards : Rat)
    loan_count := (p.existing_loans : Rat) }

/-- Modelled from the spec: the Rule-Based Fallback of section 4.4, a
linear weighted sum over the feature vector with a fixed documented
coefficient table whose directions follow the spec (unemployment strongly
negative, income and savings positive, credit-card count and late
payments negative). -/
def fallbackRaw (fv : FeatureVector) : Rat :=
  40 + (1 / 5) * fv.income_to_housing + (1 / 10) * fv.financial_cushion
    + 30 * fv.payment_reliability - (1 / 5) * fv.risk_behavior_score
    - 35 * fv.employment_unemployed - fv.credit_card_count
    - 2 * fv.loan_count

/-- Modelled from the spec: the loaded regression model applied by the
Score Model Adapter (section 4.3).  The artifact itself is an opaque
blob outside the source tree; the coefficients here follow the signs and
relative magnitudes of the feature-importance table in
src/Model/results/model_comparison_report.md (unemployed strongly
negative, income positive, payment consistency positive). -/
def modelRaw (fv : FeatureVector) : Rat :=
  42 + (1 / 4) * fv.income_to_housing + (1 / 8) * fv.financial_cushion
    + (509 / 20) * fv.payment_reliability
    - (1 / 4) * fv.risk_behavior_score
    - (4964 / 100) * fv.employment_unemployed
    - (1 / 2) * fv.credit_card_count - fv.loan_count

/-- Modelled from the spec: the configured state of the Score Model
Adapter back-end (sections 4.3 and 5): a loaded local model, a missing
artifact, a responsive remote endpoint, a remote call that hit its
bounded timeout, or an artifact whose recorded schema version disagrees
with the Feature Engineer. -/
inductive ModelBackend where
  | localLoaded
  | localMissing
  | remoteResponsive
  | remoteTimeout
  | schemaDrift
deriving DecidableEq, Repr

/-- Modelled from the spec: the infer contract of section 4.3.  Both
back-ends expose the identical contract; a missing artifact yields
ModelUnavailable, a version disagreement yields SchemaMismatch, and a
remote timeout surfaces as an InferenceFailure-class model error, which
section 5 requires to be handled exactly like any other ModelError. -/
def runAdapter : ModelBackend → FeatureVector → Except ModelError Rat
  | .localLoaded, fv => .ok (modelRaw fv)
  | .localMissing, _ => .error .modelUnavailable
  | .remoteResponsive, fv => .ok (modelRaw fv)
  | .remoteTimeout, _ => .error .inferenceFailure
  | .schemaDrift, _ => .error .schemaMismatch

/-- The raw score the pipeline ends up using: the adapter output on
success, the rule-based fallback on any model error (spec section 5). -/
def rawOf (b : ModelBackend) (fv : FeatureVector) : Rat :=
  match runAdapter b fv with
  | .ok r => r
  | .error _ => fallbackRaw fv

/-- The source tag recording which strategy produced the score. -/
def sourceOf (b : ModelBackend) (fv : FeatureVector) : ScoreSource :=
  match runAdapter b fv with
  | .ok _ => .modelInference
  | .error _ => .ruleFallback

/-- Modelled from the spec: the fixed affine rescaling of section 4.5
mapping the raw output range 0 to 100 onto the published 300 to 850
scale. -/
def affineMap (raw : Rat) : Rat := 300 + (11 / 2) * raw

/-- Integer clamp into a closed interval. -/
def clampInt (x lo hi : Int) : Int := max lo (min x hi)

/-- Modelled from the spec: bandedScore of section 4.5, the clamped
rounded affine image of the raw score. -/
def bandedScoreOf (raw : Rat) : Int := clampInt (round (affineMap raw)) 300 850

/-- Modelled from the spec: the band step function of section 4.5 with
boundaries inclusive on the lower bound; below 650 is Poor. -/
def bandOf (s : Int) : Band :=
  if 750 ≤ s then .Excellent
  else if 700 ≤ s then .VeryGood
  else if 650 ≤ s then .Good
  else .Poor

/-- Modelled from the spec: the fixed approval threshold of section 4.5. -/
def approvalThreshold : Int := 650

/-- Modelled from the spec: the approval flag of section 4.5. -/
def approvedOf (s : Int) : Bool := approvalThreshold ≤ s

/-- Modelled from the spec: the bounded perturbation of section 4.5
computing the best achievable feature vector: every controllable
behavioral feature (payment reliability, financial cushion) is set to its
best value while structural features stay fixed. -/
def bestFeatures (fv : FeatureVector) : FeatureVector :=
  { fv with payment_reliability := 1, financial_cushion := 100 }

/-- The attribution terms of the rule-based fallback: each coefficient
times the feature value (spec section 4.6). -/
def fallbackTerms (fv : FeatureVector) : List (String × Rat) :=
  [("income_to_housing", (1 / 5) * fv.income_to_housing),
   ("financial_cushion", (1 / 10) * fv.financial_cushion),
   ("payment_reliability", 30 * fv.payment_reliability),
   ("risk_behavior_score", -(1 / 5) * fv.risk_behavior_score),
   ("employment_unemployed", -35 * fv.employment_unemployed),
   ("credit_card_count", -fv.credit_card_count),
   ("loan_count", -2 * fv.loan_count)]

/-- The attribution terms of the model path: per-feature contribution of
the modelled regression at the evaluated point (spec section 4.6). -/
def modelTerms (fv : FeatureVector) : List (String × Rat) :=
  [("income_to_housing", (1 / 4) * fv.income_to_housing),
   ("financial_cushion", (1 / 8) * fv.financial_cushion),
   ("payment_reliability", (509 / 20) * fv.payment_reliability),
   ("risk_behavior_score", -(1 / 4) * fv.risk_behavior_score),
   ("employment_unemployed", -(4964 / 100) * fv.employment_unemployed),
   ("credit_card_count", -(1 / 2) * fv.credit_card_count),
   ("loan_count", -fv.loan_count)]

/-- Builds one Insight from a named attribution term. -/
def mkInsight (t : String × Rat) : Insight :=
  { factorName := t.1
    impactDirection :=
      if 0 < t.2 then .Positive else if t.2 < 0 then .Negative else .Neutral
    magnitude := t.2
    description := t.1 }

/-- Insertion into a list kept sorted by absolute magnitude, descending;
insertion after equal magnitudes keeps the fixed feature order as the tie
break (spec section 4.6). -/
def insertByMag (i : Insight) : List Insight → List Insight
  | [] => [i]
  | j :: rest =>
    if |j.magnitude| < |i.magnitude| then i :: j :: rest
    else j :: insertByMag i rest

/-- Sorts insights by absolute magnitude, descending. -/
def sortByMag : List Insight → List Insight
  | [] => []
  | i :: rest => insertByMag i (sortByMag rest)

/-- Modelled from the spec: the Insight Generator of section 4.6, a
bounded top five factors ordered by absolute magnitude. -/
def explainTerms (ts : List (String × Rat)) : List Insight :=
  (sortByMag (ts.map mkInsight)).take 5

/-- The insights for a scoring run: model attribution on the model path,
coefficient-times-value attribution on the fallback path. -/
def explainOf (b : ModelBackend) (fv : FeatureVector) : List Insight :=
  match runAdapter b fv with
  | .ok _ => explainTerms (modelTerms fv)
  | .error _ => explainTerms (fallbackTerms fv)

/-- Modelled from the spec: the ScoringResult of section 3. -/
structure ScoringResult where
  rawScore : Rat
  bandedScore : Int
  band : Band
  approved : Bool
  bestAchievableScore : Int
  source : ScoreSource
  insights : List Insight
deriving DecidableEq, Repr

/-- Modelled from the spec: the scoring pipeline of section 2 applied to
a valid profile: engineer the features, try the Score Model Adapter,
fall through to the Rule-Based Fallback on any model error, post-process
the raw score, and re-run the strategy on the best achievable features. -/
def scoreProfile (b : ModelBackend) (p : FinancialProfile) : ScoringResult :=
  let fv := engineer p
  let raw := rawOf b fv
  { rawScore := raw
    bandedScore := bandedScoreOf raw
    band := bandOf (bandedScoreOf raw)
    approved := approvedOf (bandedScoreOf raw)
    bestAchievableScore := bandedScoreOf (rawOf b (bestFeatures fv))
    source := sourceOf b fv
    insights := explainOf b fv }

/-- Modelled from the spec: the full scoring request of sections 4.1 and
7: a response is either a ScoringResult or the structured validation
failure, never a model error. -/
def score (b : ModelBackend) (s : RawSubmission) :
    Except ValidationError ScoringResult :=
  (normalize s).map (scoreProfile b)

/-- The positive-signal sample submission of spec section 8 (concrete
scenario), used as a concrete evaluation point. -/
def sampleSubmission : RawSubmission :=
  { age := some 28, state := "CA", education_level := "bachelors",
    employment_type := "full_time", annual_income := 65000,
    job_duration := "4 years", monthly_cost := 2000, mortgage := 0,
    savings := 15000, balance := 5000, dependents := some 0,
    existing_loans := 1, loan_payments := 300, credit_cards := 2,
    inquiries := 1, late_payments := 0, bankruptcy := false,
    credit_history_length := 3 }

/-- The normalized profile of the sample submission. -/
def sampleProfile : FinancialProfile :=
  { age := 28, state := "CA", education_level := "bachelors",
    employment_type := "full_time", annual_income := 65000,
    job_duration := "4 years", monthly_cost := 2000, mortgage := 0,
    savings := 15000, balance := 5000, dependents := 0,
    existing_loans := 1, loan_payments := 300, credit_cards := 2,
    inquiries := 1, late_payments := 0, bankruptcy := false,
    credit_history_length := 3 }

theorem strip_digits_all (s : String) :
    ((stripNonDigits s).data.all fun c => c.isDigit) = true := by
  have h : (stripNonDigits s).data = s.data.filter fun c => c.isDigit := rfl
  rw [h, List.all_eq_true]
  intro c hc
  exact (List.mem_filter.mp hc).2

theorem foldl_strip_digits (a : String) (l : List String)
    (ha : (a.data.all fun c => c.isDigit) = true) :
    (((l.foldl (fun _ raw => stripNonDigits raw) a).data.all
        fun c => c.isDigit) = true) := by
  induction l generalizing a with
  | nil => simpa using ha
  | cons e rest ih =>
    rw [List.foldl_cons]
    exact ih (stripNonDigits e) (strip_digits_all e)

/-- C1 counterexample: the claimed step function is wrong below 650 and
between 700 and 750: the score label for 640 is Fair, not Poor, and the
dashboard score class for 700 is good, not a very-good band. -/
theorem ui_band_claim_false :
    (getScoreLabel 640).1 = "Fair" ∧ (getScoreLabel 640).1 ≠ "Poor" ∧
      getScoreClass 700 = "good" ∧ getScoreClass 640 = "poor" ∧
      getScoreClass 600 = "poor" ∧ (getScoreLabel 600).1 = "Fair" := by
  decide

/-- C1 amended: the band shown for a banded score is a deterministic step
function with boundaries inclusive on the lower bound, but with the code
labelling: getScoreLabel yields Excellent iff 750 or more, Very Good on
700 to 749, Good on 650 to 699, Fair on 600 to 649 and Building below
600, while the dashboard class getScoreClass yields excellent iff 750 or
more, good on 700 to 749, fair on 650 to 699 and poor below 650. -/
theorem ui_band_step_function (s : Int) :
    ((getScoreLabel s).1 = "Excellent" ↔ 750 ≤ s) ∧
      ((getScoreLabel s).1 = "Very Good" ↔ 700 ≤ s ∧ s < 750) ∧
      ((getScoreLabel s).1 = "Good" ↔ 650 ≤ s ∧ s < 700) ∧
      ((getScoreLabel s).1 = "Fair" ↔ 600 ≤ s ∧ s < 650) ∧
      ((getScoreLabel s).1 = "Building" ↔ s < 600) ∧
      (getScoreClass s = "excellent" ↔ 750 ≤ s) ∧
      (getScoreClass s = "good" ↔ 700 ≤ s ∧ s < 750) ∧
      (getScoreClass s = "fair" ↔ 650 ≤ s ∧ s < 700) ∧
      (getScoreClass s = "poor" ↔ s < 650) := by
  unfold getScoreLabel getScoreClass
  split_ifs <;> simp_all <;> omega

/-- C10: the three-point score history rendered by the dashboard is
computed from the single current score; for any score of at least 300
every displayed point lies between 300 and the current score and the
displayed sequence is non-decreasing. -/
theorem dashboard_score_history_props (s : Int) (h : 300 ≤ s) :
    (∀ x ∈ scoreHistoryScores s, 300 ≤ x ∧ x ≤ s) ∧
      List.Chain' (fun a b => a ≤ b) (scoreHistoryScores s) := by
  constructor
  · intro x hx
    simp [scoreHistoryScores, scoreHistory] at hx
    rcases hx with h1 | h1 | h1 <;> subst h1 <;> constructor <;> omega
  · simp [scoreHistoryScores, scoreHistory, List.chain'_cons]
    omega

/-- Witness for C10 at the dashboard test score 712. -/
theorem dashboard_score_history_props_witness :
    (∀ x ∈ scoreHistoryScores 712, 300 ≤ x ∧ x ≤ 712) ∧
      List.Chain' (fun a b => a ≤ b) (scoreHistoryScores 712) :=
  dashboard_score_history_props 712 (by norm_num)

/-- C8: submitting the CheckScore form is independent of everything the
user typed: any two fillings produce the same navigation target, the
score-result route, and the score-result page shows the fixed score 756
with category Excellent. -/
theorem check_score_submission_constant (f g : FormData) :
    handleSubmit f = handleSubmit g ∧ handleSubmit f = "/score-result" ∧
      scoreResultFinalScore = 756 ∧ scoreResultCategory = "Excellent" :=
  ⟨rfl, rfl, rfl, rfl⟩

/-- C9: after any sequence of edits, the stored value of a field
configured with type number consists only of decimal digits. -/
theorem number_field_digits_only (edits : List String) :
    ((numberFieldValue edits).data.all fun c => c.isDigit) = true :=
  foldl_strip_digits "" edits rfl

/-- C7: the submission payload groups, fields and types declared by the
frontend FinancialData interface are exactly the six groups of the
specification, with every specification type in its TypeScript
representation. -/
theorem submission_payload_grouping :
    financialDataShape =
      specSubmissionShape.map
        (fun g => (g.1, g.2.map fun f => (f.1, tsRepr f.2))) := by
  rfl

theorem round_rat_mono {x y : Rat} (h : x ≤ y) : round x ≤ round y := by
  rw [round_eq, round_eq]
  exact Int.floor_le_floor (by linarith)

theorem bandedScoreOf_mono {x y : Rat} (h : x ≤ y) :
    bandedScoreOf x ≤ bandedScoreOf y := by
  unfold bandedScoreOf clampInt
  have hr : round (affineMap x) ≤ round (affineMap y) := by
    apply round_rat_mono
    unfold affineMap
    linarith
  exact max_le_max le_rfl (min_le_min hr le_rfl)

theorem bandedScoreOf_lb (r : Rat) : 300 ≤ bandedScoreOf r :=
  le_max_left _ _

theorem bandedScoreOf_ub (r : Rat) : bandedScoreOf r ≤ 850 :=
  max_le (by norm_num) (min_le_right _ _)

theorem scoreProfile_banded (b : ModelBackend) (p : FinancialProfile) :
    (scoreProfile b p).bandedScore = bandedScoreOf (rawOf b (engineer p)) :=
  rfl

theorem scoreProfile_raw (b : ModelBackend) (p : FinancialProfile) :
    (scoreProfile b p).rawScore = rawOf b (engineer p) :=
  rfl

theorem scoreProfile_best (b : ModelBackend) (p : FinancialProfile) :
    (scoreProfile b p).bestAchievableScore =
      bandedScoreOf (rawOf b (bestFeatures (engineer p))) :=
  rfl

theorem scoreProfile_source (b : ModelBackend) (p : FinancialProfile) :
    (scoreProfile b p).source = sourceOf b (engineer p) :=
  rfl

theorem rawOf_le_rawOf (b : ModelBackend) {fv1 fv2 : FeatureVector}
    (h1 : fv1.income_to_housing ≤ fv2.income_to_housing)
    (h2 : fv1.financial_cushion ≤ fv2.financial_cushion)
    (h3 : fv1.payment_reliability ≤ fv2.payment_reliability)
    (h4 : fv2.risk_behavior_score ≤ fv1.risk_behavior_score)
    (h5 : fv2.employment_unemployed ≤ fv1.employment_unemployed)
    (h6 : fv2.credit_card_count ≤ fv1.credit_card_count)
    (h7 : fv2.loan_count ≤ fv1.loan_count) :
    rawOf b fv1 ≤ rawOf b fv2 := by
  cases b <;> simp [rawOf, runAdapter, modelRaw, fallbackRaw] <;> linarith

theorem score_ok_elim {b : ModelBackend} {sub : RawSubmission}
    {res : ScoringResult} (h : score b sub = .ok res) :
    ∃ p, normalize sub = .ok p ∧ res = scoreProfile b p := by
  unfold score at h
  cases hn : normalize sub with
  | ok p =>
    rw [hn] at h
    simp [Except.map] at h
    exact ⟨p, rfl, h.symm⟩
  | error e =>
    rw [hn] at h
    simp [Except.map] at h

theorem firstInvalid_none_check {sub : RawSubmission} {a : Int}
    (h : firstInvalid sub a = none) :
    ∀ c ∈ checks sub a, c.1 = false := by
  intro c hc
  unfold firstInvalid at h
  rw [Option.map_eq_none'] at h
  have := List.find?_eq_none.mp h c hc
  simpa using this

theorem firstInvalid_none_late {sub : RawSubmission} {a : Int}
    (h : firstInvalid sub a = none) : 0 ≤ sub.late_payments := by
  have hc :=
    firstInvalid_none_check h
      (decide (sub.late_payments < 0),
        ({ field := "late_payments", reason := "negative" } : ValidationError))
      (by simp [checks])
  simp at hc
  omega

theorem normalize_late_nonneg {sub : RawSubmission} {p : FinancialProfile}
    (h : normalize sub = .ok p) : 0 ≤ p.late_payments := by
  unfold normalize at h
  split at h
  · exact absurd h (by simp)
  · split at h
    · exact absurd h (by simp)
    · next hv =>
      rw [Except.ok.injEq] at h
      subst h
      exact firstInvalid_none_late hv

/-- C2: for any back-end state and any submission, a successfully
normalized profile always yields a ScoringResult; whenever the adapter
reports any ModelError the result comes from the rule-based fallback and
is tagged so; and the only failure that ever reaches the caller is the
validation error of the normalizer. -/
theorem scoring_never_surfaces_model_error (b : ModelBackend)
    (sub : RawSubmission) :
    (∀ p : FinancialProfile, normalize sub = .ok p →
        score b sub = .ok (scoreProfile b p) ∧
          ∀ e : ModelError, runAdapter b (engineer p) = .error e →
            (scoreProfile b p).source = ScoreSource.ruleFallback) ∧
      ∀ e : ValidationError, score b sub = .error e →
        normalize sub = .error e := by
  constructor
  · intro p hp
    constructor
    · simp [score, hp, Except.map]
    · intro e he
      rw [scoreProfile_source]
      simp [sourceOf, he]
  · intro e he
    unfold score at he
    cases hn : normalize sub with
    | ok p =>
      rw [hn] at he
      simp [Except.map] at he
    | error e2 =>
      rw [hn] at he
      simp [Except.map] at he
      rw [he]

/-- Witness for C2: the sample submission scored with a missing model
artifact returns a result tagged as fallback. -/
theorem scoring_never_surfaces_model_error_witness :
    score ModelBackend.localMissing sampleSubmission =
        .ok (scoreProfile ModelBackend.localMissing sampleProfile) ∧
      (scoreProfile ModelBackend.localMissing sampleProfile).source =
        ScoreSource.ruleFallback := by
  obtain ⟨h1, _⟩ :=
    scoring_never_surfaces_model_error ModelBackend.localMissing
      sampleSubmission
  obtain ⟨ha, hb⟩ := h1 sampleProfile (by rfl)
  exact ⟨ha, hb ModelError.modelUnavailable (by rfl)⟩

/-- C3: every ScoringResult delivered by the pipeline has a banded score
between 300 and 850, and that banded score is exactly the clamped
rounding of the affine image of the raw score carried in the same
result, so it is reproducible from the raw score alone. -/
theorem banded_score_bounds (b : ModelBackend) (sub : RawSubmission)
    (res : ScoringResult) (h : score b sub = .ok res) :
    300 ≤ res.bandedScore ∧ res.bandedScore ≤ 850 ∧
      res.bandedScore = clampInt (round (affineMap res.rawScore)) 300 850 := by
  obtain ⟨p, _, rfl⟩ := score_ok_elim h
  refine ⟨?_, ?_, ?_⟩
  · rw [scoreProfile_banded]
    exact bandedScoreOf_lb _
  · rw [scoreProfile_banded]
    exact bandedScoreOf_ub _
  · rw [scoreProfile_banded, scoreProfile_raw]
    rfl

/-- Witness for C3 at the sample submission with the loaded model. -/
theorem banded_score_bounds_witness :
    300 ≤ (scoreProfile ModelBackend.localLoaded sampleProfile).bandedScore ∧
      (scoreProfile ModelBackend.localLoaded sampleProfile).bandedScore ≤ 850 ∧
      (scoreProfile ModelBackend.localLoaded sampleProfile).bandedScore =
        clampInt
          (round (affineMap
            (scoreProfile ModelBackend.localLoaded sampleProfile).rawScore))
          300 850 :=
  banded_score_bounds ModelBackend.localLoaded sampleSubmission
    (scoreProfile ModelBackend.localLoaded sampleProfile) (by rfl)

/-- C4: holding everything else fixed, a larger annual income never
lowers the banded score, more late payments never raise it, and a
bankruptcy flag never raises it relative to no bankruptcy — for every
back-end state, hence both for the modelled inference path and for the
rule-based fallback. -/
theorem score_monotone_dominant_factors (b : ModelBackend)
    (p : FinancialProfile) :
    (∀ x y : Rat, x ≤ y →
        (scoreProfile b { p with annual_income := x }).bandedScore ≤
          (scoreProfile b { p with annual_income := y }).bandedScore) ∧
      (∀ j k : Int, j ≤ k →
        (scoreProfile b { p with late_payments := k }).bandedScore ≤
          (scoreProfile b { p with late_payments := j }).bandedScore) ∧
      (scoreProfile b { p with bankruptcy := true }).bandedScore ≤
        (scoreProfile b { p with bankruptcy := false }).bandedScore := by
  have hM : (0 : Rat) < max (12 * p.monthly_cost) 1 :=
    lt_of_lt_of_le one_pos (le_max_right _ _)
  refine ⟨fun x y hxy => ?_, fun j k hjk => ?_, ?_⟩
  · rw [scoreProfile_banded, scoreProfile_banded]
    apply bandedScoreOf_mono
    exact rawOf_le_rawOf b
      (min_le_min le_rfl ((div_le_div_iff_of_pos_right hM).mpr hxy))
      le_rfl le_rfl le_rfl le_rfl le_rfl le_rfl
  · rw [scoreProfile_banded, scoreProfile_banded]
    apply bandedScoreOf_mono
    have hjk2 : ((j : Rat)) ≤ ((k : Rat)) := by exact_mod_cast hjk
    exact rawOf_le_rawOf b le_rfl le_rfl
      (max_le_max le_rfl (by linarith))
      (by
        show 5 * ((j : Rat)) + 2 * ((p.inquiries : Rat))
              + 50 * bankruptcyFlag p.bankruptcy ≤
            5 * ((k : Rat)) + 2 * ((p.inquiries : Rat))
              + 50 * bankruptcyFlag p.bankruptcy
        linarith)
      le_rfl le_rfl le_rfl
  · rw [scoreProfile_banded, scoreProfile_banded]
    apply bandedScoreOf_mono
    exact rawOf_le_rawOf b le_rfl le_rfl le_rfl
      (by
        show 5 * ((p.late_payments : Rat)) + 2 * ((p.inquiries : Rat))
              + 50 * bankruptcyFlag false ≤
            5 * ((p.late_payments : Rat)) + 2 * ((p.inquiries : Rat))
              + 50 * bankruptcyFlag true
        norm_num [bankruptcyFlag])
      le_rfl le_rfl le_rfl

/-- Witness for C4 at the sample profile with the loaded model. -/
theorem score_monotone_dominant_factors_witness :
    (scoreProfile ModelBackend.localLoaded
        { sampleProfile with annual_income := 1000 }).bandedScore ≤
      (scoreProfile ModelBackend.localLoaded
        { sampleProfile with annual_income := 2000 }).bandedScore ∧
    (scoreProfile ModelBackend.localLoaded
        { sampleProfile with late_payments := 5 }).bandedScore ≤
      (scoreProfile ModelBackend.localLoaded
        { sampleProfile with late_payments := 0 }).bandedScore ∧
    (scoreProfile ModelBackend.localLoaded
        { sampleProfile with bankruptcy := true }).bandedScore ≤
      (scoreProfile ModelBackend.localLoaded
        { sampleProfile with bankruptcy := false }).bandedScore := by
  obtain ⟨m1, m2, m3⟩ :=
    score_monotone_dominant_factors ModelBackend.localLoaded sampleProfile
  exact ⟨m1 1000 2000 (by norm_num), m2 0 5 (by norm_num), m3⟩

/-- C6: every ScoringResult delivered by the pipeline has a best
achievable score at least the banded score: re-running the strategy with
the controllable behavioral features at their best values and structural
features fixed never scores lower. -/
theorem best_achievable_ge_banded (b : ModelBackend) (sub : RawSubmission)
    (res : ScoringResult) (h : score b sub = .ok res) :
    res.bandedScore ≤ res.bestAchievableScore := by
  obtain ⟨p, hn, rfl⟩ := score_ok_elim h
  have hl : 0 ≤ p.late_payments := normalize_late_nonneg hn
  have hl2 : (0 : Rat) ≤ (p.late_payments : Rat) := by exact_mod_cast hl
  rw [scoreProfile_banded, scoreProfile_best]
  apply bandedScoreOf_mono
  exact rawOf_le_rawOf b le_rfl (min_le_left _ _)
    (by
      show max 0 (1 - (p.late_payments : Rat) / 12) ≤ 1
      have hd : (0 : Rat) ≤ (p.late_payments : Rat) / 12 := by positivity
      exact max_le (by norm_num) (by linarith))
    le_rfl le_rfl le_rfl le_rfl

/-- Witness for C6 at the sample submission with a missing model. -/
theorem best_achievable_ge_banded_witness :
    (scoreProfile ModelBackend.localMissing sampleProfile).bandedScore ≤
      (scoreProfile ModelBackend.localMissing sampleProfile).bestAchievableScore :=
  best_achievable_ge_banded ModelBackend.localMissing sampleSubmission
    (scoreProfile ModelBackend.localMissing sampleProfile) (by rfl)

/-- C5 counterexample: the DashboardData payload through which the
frontend receives the stored score declares no source key at all, so a
scoring result is delivered to the frontend without the source tag. -/
theorem dashboard_payload_has_no_source_field :
    "source" ∉ dashboardDataFields := by
  decide

/-- C5 amended: every ScoringResult delivered by the scoring pipeline
itself carries a source tag that is one of the two strategies, serialized
as model or fallback; the dashboard payload type consumed by the
frontend, however, does not carry the tag. -/
theorem scoring_result_source_tagged (b : ModelBackend)
    (sub : RawSubmission) (res : ScoringResult)
    (h : score b sub = .ok res) :
    (res.source = ScoreSource.modelInference ∨
        res.source = ScoreSource.ruleFallback) ∧
      (ScoreSource.serialize res.source = "model" ∨
        ScoreSource.serialize res.source = "fallback") := by
  cases hs : res.source <;> simp [ScoreSource.serialize]

/-- Witness for the amended C5 at the sample submission. -/
theorem scoring_result_source_tagged_witness :
    ((scoreProfile ModelBackend.localLoaded sampleProfile).source =
          ScoreSource.modelInference ∨
        (scoreProfile ModelBackend.localLoaded sampleProfile).source =
          ScoreSource.ruleFallback) ∧
      (ScoreSource.serialize
          (scoreProfile ModelBackend.localLoaded sampleProfile).source =
          "model" ∨
        ScoreSource.serialize
          (scoreProfile ModelBackend.localLoaded sampleProfile).source =
          "fallback") :=
  scoring_result_source_tagged ModelBackend.localLoaded sampleSubmission
    (scoreProfile ModelBackend.localLoaded sampleProfile) (by rfl)

end CredNova
